import Mathlib

/-!
Verification of the promptgraveyard evaluation-record cache, query engine,
stats aggregator and revival ledger, as implemented in
`server/src/services/graveyardService.ts`, `server/src/services/revivalService.ts`
and `server/src/controllers/*.ts`.

Modelling conventions for the shallow embedding:
- JavaScript numbers (scores, costs, latencies) are modelled as `Rat`.
- ISO-8601 timestamp strings, which the source only ever compares through
  `new Date(s).getTime()`, are modelled directly as epoch milliseconds (`Int`).
- `Record<string, T>` objects are modelled as association lists
  `List (String × T)`; `Object.values` is `map Prod.snd` and `Object.keys`
  is `map Prod.fst`.
- Mutable service state (`this.cachedResults`, `this.lastCacheUpdate`) is
  passed explicitly; methods on the service become functions
  `state → (result, state)`.
- Thrown exceptions are modelled with `Except`; a `try/catch` in the source
  becomes a `match` on the `Except` value.
- File-system outcomes are modelled as an inductive source type: a file is
  missing (ENOENT), unreadable (any other I/O error), or readable with some
  content; a content line either parses to a record or is malformed
  (`JSON.parse` throws).
-/

namespace PromptGraveyard

/-- One LLM provider response, from `LLMResponse` in `types/graveyard.ts`.
Optional numeric fields are `Option Rat`; `timestamp` is kept abstract as a
string because nothing in the modelled code reads it. -/
structure LLMResponse where
  response : Option String := none
  latency_ms : Option Rat := none
  cost_usd : Option Rat := none
  timestamp : String := ""
  model : Option String := none
  error : Option String := none
deriving Repr, DecidableEq

/-- Zombie classification of a record, from `ZombieStatus` in
`types/graveyard.ts`. -/
structure ZombieStatus where
  is_zombie : Bool
  overall_score : Rat
  severity : String
  visual_theme : String := ""
  revival_priority : String := ""
  failed_critical_metrics : List String := []
  reason : String := ""
deriving Repr, DecidableEq

/-- One revival suggestion, from `RevivalSuggestion` in `types/graveyard.ts`. -/
structure RevivalSuggestion where
  improved_prompt : String
  strategy : String
  technique : String := ""
  reasoning : String := ""
  confidence_score : Rat
  expected_improvements : List (String × Rat) := []
deriving Repr, DecidableEq

/-- One evaluation record, from `EvaluationResult` in `types/graveyard.ts`.
`timestamp` is modelled as epoch milliseconds (the source compares
timestamps only through `new Date(...).getTime()` or `Date` ordering).
The `metrics` field is omitted: none of the modelled operations read it. -/
structure EvaluationResult where
  prompt_id : String
  file_path : String := ""
  prompt_text : String := ""
  timestamp : Int
  llm_responses : List (String × LLMResponse) := []
  zombie_status : ZombieStatus
  revival_suggestions : List RevivalSuggestion := []
deriving Repr, DecidableEq

/-- Filter parameters, from `FilterParams` in `types/graveyard.ts`.
`none` models an absent field. For the string-valued fields the source
tests truthiness (`if (filters.severity)`), so an empty string behaves as
absent; `none` covers both. Date bounds are epoch milliseconds. -/
structure FilterParams where
  is_zombie : Option Bool := none
  severity : Option String := none
  min_score : Option Rat := none
  max_score : Option Rat := none
  date_from : Option Int := none
  date_to : Option Int := none
  llm_provider : Option String := none
deriving Repr, DecidableEq

/-- Pagination parameters, from `PaginationParams` in `types/graveyard.ts`.
`page` and `limit` are `Int` because `parseInt` can produce negative
values that flow through unchanged. -/
structure PaginationParams where
  page : Int
  limit : Int
  sort_by : Option String := none
  sort_order : Option String := none
deriving Repr, DecidableEq

/-- The predicate inside `GraveyardService.applyFilters`
(graveyardService.ts lines 199-236): a chain of early-`false` returns, one
per supplied filter field, ending in `true`. Each source guard of the shape
`filters.x !== undefined && violated(x)` is `Option.any violated filters.x`. -/
def filterPred (filters : FilterParams) (result : EvaluationResult) : Bool :=
  if filters.is_zombie.any (fun z => result.zombie_status.is_zombie != z) then false
  else if filters.severity.any (fun s => result.zombie_status.severity != s) then false
  else if filters.min_score.any
      (fun m => decide (result.zombie_status.overall_score < m)) then false
  else if filters.max_score.any
      (fun m => decide (m < result.zombie_status.overall_score)) then false
  else if filters.date_from.any (fun d => decide (result.timestamp < d)) then false
  else if filters.date_to.any (fun d => decide (d < result.timestamp)) then false
  else if filters.llm_provider.any
      (fun p => !((result.llm_responses.map Prod.fst).contains p)) then false
  else true

/-- `GraveyardService.applyFilters`: `results.filter(result => ...)`. -/
def applyFilters (results : List EvaluationResult) (filters : FilterParams) :
    List EvaluationResult :=
  results.filter (filterPred filters)

/-- Spec-side reading of the filter ("a conjunction (AND) of zero or more
independent predicates ... absent predicates are no-ops"): every supplied
predicate must hold; each absent field contributes `true`. -/
def satisfiesAll (filters : FilterParams) (result : EvaluationResult) : Bool :=
  filters.is_zombie.all (fun z => result.zombie_status.is_zombie == z) &&
  filters.severity.all (fun s => result.zombie_status.severity == s) &&
  filters.min_score.all (fun m => decide (m ≤ result.zombie_status.overall_score)) &&
  filters.max_score.all (fun m => decide (result.zombie_status.overall_score ≤ m)) &&
  filters.date_from.all (fun d => decide (d ≤ result.timestamp)) &&
  filters.date_to.all (fun d => decide (result.timestamp ≤ d)) &&
  filters.llm_provider.all (fun p => (result.llm_responses.map Prod.fst).contains p)

/-- Latencies reported by a record's provider responses:
`Object.values(result.llm_responses).filter(resp => resp.latency_ms !== undefined)
.map(resp => resp.latency_ms!)`, fused into one `filterMap`. -/
def recordLatencies (result : EvaluationResult) : List Rat :=
  (result.llm_responses.map Prod.snd).filterMap (fun resp => resp.latency_ms)

/-- `reduce((a, b) => a + b, 0)` on a list of numbers. -/
def listSum (l : List Rat) : Rat :=
  l.foldl (fun s a => s + a) 0

/-- The per-record average inside `calculateAverageLatency`
(graveyardService.ts lines 280-289): mean of the reported latencies, `0`
when none reported. -/
def recordAvgLatency (result : EvaluationResult) : Rat :=
  let responseLatencies := recordLatencies result
  if responseLatencies.length > 0 then
    listSum responseLatencies / (responseLatencies.length : Rat)
  else 0

/-- `GraveyardService.calculateAverageLatency` (lines 277-293): empty input
gives `0`; otherwise the mean, over records, of each record's own mean. -/
def calculateAverageLatency (results : List EvaluationResult) : Rat :=
  if results.length = 0 then 0
  else (results.foldl (fun sum r => sum + recordAvgLatency r) 0) / (results.length : Rat)

/-- Total cost of a record:
`Object.values(r.llm_responses).reduce((sum, resp) => sum + (resp.cost_usd || 0), 0)`
(the inner reduce of `getGraveyardStats`, also used by `mapToPromptSummary`
and the `cost` sort key). -/
def totalCostOf (result : EvaluationResult) : Rat :=
  (result.llm_responses.map Prod.snd).foldl (fun sum resp => sum + resp.cost_usd.getD 0) 0

/-- The numeric key extracted by the `switch (sortBy)` inside
`sortResults` (both `GraveyardService.sortResults` and
`ResultsController.sortResults`, which are line-for-line identical);
`none` models the `default: return 0` branch. -/
def sortKeyValue (sortBy : String) (result : EvaluationResult) : Option Rat :=
  if sortBy = "score" then some result.zombie_status.overall_score
  else if sortBy = "timestamp" then some (result.timestamp : Rat)
  else if sortBy = "cost" then some (totalCostOf result)
  else if sortBy = "latency" then some (calculateAverageLatency [result])
  else none

/-- The comparator passed to `results.sort` in `sortResults`. -/
def compareResults (sortBy order : String) (a b : EvaluationResult) : Int :=
  match sortKeyValue sortBy a, sortKeyValue sortBy b with
  | some aValue, some bValue =>
      if order = "asc" then
        if aValue < bValue then -1 else if bValue < aValue then 1 else 0
      else
        if bValue < aValue then -1 else if aValue < bValue then 1 else 0
  | _, _ => 0

/-- Insert `x` (originally earlier than every element of the list) into an
already-sorted list, before the first element it does not strictly exceed.
Together with `stableSortByCmp` this models an ES2019 stable
`Array.prototype.sort`. -/
def insertCmp {α : Type} (cmp : α → α → Int) (x : α) : List α → List α
  | [] => [x]
  | y :: ys => if cmp x y ≤ 0 then x :: y :: ys else y :: insertCmp cmp x ys

/-- Stable sort by a JS-style three-way comparator (negative means
"first argument sorts earlier"; `0` keeps original relative order). -/
def stableSortByCmp {α : Type} (cmp : α → α → Int) : List α → List α
  | [] => []
  | x :: xs => insertCmp cmp x (stableSortByCmp cmp xs)

/-- `sortResults(results, sortBy, order)` of both service and controller. -/
def sortResults (results : List EvaluationResult) (sortBy order : String) :
    List EvaluationResult :=
  stableSortByCmp (compareResults sortBy order) results

/-- Index normalization of ECMA-262 `Array.prototype.slice`: negative
indices count from the end, and indices are clamped to `[0, length]`. -/
def jsSliceBound (len idx : Int) : Int :=
  if idx < 0 then max (len + idx) 0 else min idx len

/-- `l.slice(start, fin)` with full JavaScript semantics. -/
def jsSlice {α : Type} (l : List α) (start fin : Int) : List α :=
  (l.drop (jsSliceBound (l.length : Int) start).toNat).take
    ((jsSliceBound (l.length : Int) fin) - (jsSliceBound (l.length : Int) start)).toNat

/-- `parsePagination(query)` (identical in `PromptsController` lines 839-846
and `ResultsController` lines 647-654). The `Option Int` inputs model the
result of `parseInt` on the raw query string: `none` is an absent or
non-numeric value (`NaN`). `parseInt(x) || d` maps `none` and `0` to the
default `d`; the limit is then capped by `Math.min(·, 100)`. -/
def parsePagination (pageRaw limitRaw : Option Int)
    (sortByRaw sortOrderRaw : Option String) : PaginationParams :=
  { page := match pageRaw with
      | some p => if p = 0 then 1 else p
      | none => 1
    limit := match limitRaw with
      | some l => if l = 0 then 20 else min l 100
      | none => 20
    sort_by := some (match sortByRaw with
      | some s => if s = "" then "timestamp" else s
      | none => "timestamp")
    sort_order := some (if sortOrderRaw == some "asc" then "asc" else "desc") }

/-- The record sequence after the optional filter step of
`getZombiePrompts` (lines 99-101). -/
def filteredOf (records : List EvaluationResult) (filters : Option FilterParams) :
    List EvaluationResult :=
  match filters with
  | some f => applyFilters records f
  | none => records

/-- The record sequence after the filter and optional sort steps of
`getZombiePrompts` (lines 99-112): sorted only when `sort_by` is supplied,
with `sort_order || 'desc'`. -/
def filteredSorted (records : List EvaluationResult) (filters : Option FilterParams)
    (p : PaginationParams) : List EvaluationResult :=
  match p.sort_by with
  | some sortBy => sortResults (filteredOf records filters) sortBy (p.sort_order.getD "desc")
  | none => filteredOf records filters

/-- The filter/sort/paginate pipeline of `getZombiePrompts`
(graveyardService.ts lines 99-117) applied to its input sequence: the
total is taken after filtering and before pagination, and pagination is
`slice(startIndex, startIndex + limit)` with `startIndex = (page-1)*limit`. -/
def queryRecords (records : List EvaluationResult) (filters : Option FilterParams)
    (pagination : Option PaginationParams) : List EvaluationResult × Nat :=
  let filtered := filteredOf records filters
  let total := filtered.length
  let paged := match pagination with
    | some p => jsSlice (filteredSorted records filters p)
        ((p.page - 1) * p.limit) ((p.page - 1) * p.limit + p.limit)
    | none => filtered
  (paged, total)

/-- Lightweight projection of a record, from `PromptSummary` in
`types/graveyard.ts`. -/
structure PromptSummary where
  prompt_id : String
  file_path : String
  prompt_text : String
  timestamp : Int
  overall_score : Rat
  is_zombie : Bool
  severity : String
  total_cost : Rat
  avg_latency : Rat
  llm_count : Nat
deriving Repr, DecidableEq

/-- `GraveyardService.mapToPromptSummary` (lines 311-330). -/
def mapToPromptSummary (result : EvaluationResult) : PromptSummary :=
  { prompt_id := result.prompt_id
    file_path := result.file_path
    prompt_text := result.prompt_text
    timestamp := result.timestamp
    overall_score := result.zombie_status.overall_score
    is_zombie := result.zombie_status.is_zombie
    severity := result.zombie_status.severity
    total_cost := totalCostOf result
    avg_latency := calculateAverageLatency [result]
    llm_count := (result.llm_responses.map Prod.fst).length }

/-- `Math.ceil(total / limit)` on JS numbers. -/
def ceilDiv (total : Nat) (limit : Int) : Int :=
  ((total : Rat) / (limit : Rat)).ceil

/-- Return shape of `getZombiePrompts`. -/
structure ZombiePage where
  zombies : List PromptSummary
  total : Nat
  page : Int
  totalPages : Int
deriving Repr, DecidableEq

/-- `GraveyardService.getZombiePrompts` (lines 89-125): restrict to zombie
records, then filter, sort, paginate and project to summaries. -/
def getZombiePrompts (results : List EvaluationResult) (filters : Option FilterParams)
    (pagination : Option PaginationParams) : ZombiePage :=
  let zombies := results.filter (fun r => r.zombie_status.is_zombie)
  let paged := (queryRecords zombies filters pagination).1
  let total := (queryRecords zombies filters pagination).2
  { zombies := paged.map mapToPromptSummary
    total := total
    page := match pagination with | some p => p.page | none => 1
    totalPages := match pagination with | some p => ceilDiv total p.limit | none => 1 }

/-- Increment the tally for a key in a JS-object-like association list
(`acc[key] = (acc[key] || 0) + 1`, preserving JS insertion order). -/
def bumpCount (acc : List (String × Nat)) (key : String) : List (String × Nat) :=
  if (acc.map Prod.fst).contains key then
    acc.map (fun entry => if entry.1 == key then (entry.1, entry.2 + 1) else entry)
  else acc ++ [(key, 1)]

/-- `GraveyardService.calculateRevivalSuccessRate` (lines 298-306): the
mock 65% rate when any zombie has suggestions, else `0`. -/
def calculateRevivalSuccessRate (results : List EvaluationResult) : Rat :=
  let zombiesWithSuggestions := results.filter
    (fun r => r.zombie_status.is_zombie && decide (r.revival_suggestions.length > 0))
  if zombiesWithSuggestions.length > 0 then (65 : Rat) / 100 else 0

/-- Aggregate statistics, from `GraveyardStats` in `types/graveyard.ts`. -/
structure GraveyardStats where
  total_prompts : Nat
  zombie_count : Nat
  zombie_rate : Rat
  avg_score : Rat
  total_cost : Rat
  avg_latency : Rat
  revival_success_rate : Rat
  severity_breakdown : List (String × Nat)
  recent_activity : List PromptSummary
deriving Repr, DecidableEq

/-- `GraveyardService.getEmptyStats` (lines 335-347). -/
def getEmptyStats : GraveyardStats :=
  { total_prompts := 0, zombie_count := 0, zombie_rate := 0, avg_score := 0,
    total_cost := 0, avg_latency := 0, revival_success_rate := 0,
    severity_breakdown := [], recent_activity := [] }

/-- `GraveyardService.getGraveyardStats` (lines 45-84). `recent_activity`
sorts by timestamp descending (`new Date(b) - new Date(a)`) and takes the
first ten. -/
def getGraveyardStats (results : List EvaluationResult) : GraveyardStats :=
  if results.length = 0 then getEmptyStats
  else
    let zombieResults := results.filter (fun r => r.zombie_status.is_zombie)
    let totalCost := results.foldl (fun sum r => sum + totalCostOf r) 0
    let avgLatency := calculateAverageLatency results
    let avgScore :=
      (results.foldl (fun sum r => sum + r.zombie_status.overall_score) 0) /
        (results.length : Rat)
    let severityBreakdown :=
      zombieResults.foldl (fun acc result => bumpCount acc result.zombie_status.severity) []
    let recentActivity :=
      ((stableSortByCmp (fun a b => b.timestamp - a.timestamp) results).take 10).map
        mapToPromptSummary
    { total_prompts := results.length
      zombie_count := zombieResults.length
      zombie_rate := (zombieResults.length : Rat) / (results.length : Rat)
      avg_score := avgScore
      total_cost := totalCost
      avg_latency := avgLatency
      revival_success_rate := calculateRevivalSuccessRate results
      severity_breakdown := severityBreakdown
      recent_activity := recentActivity }

/-- Spec-side two-level average for comparison with the source: each record
contributes the mean of its reported latencies (`0` when it reported none),
and the aggregate is the mean of those per-record means. -/
def specRecordMeanLatency (result : EvaluationResult) : Rat :=
  let reported := recordLatencies result
  if reported.length = 0 then 0 else reported.sum / (reported.length : Rat)

/-- Spec-side aggregate: mean across records of each record's own mean. -/
def twoLevelMeanLatency (results : List EvaluationResult) : Rat :=
  (results.map specRecordMeanLatency).sum / (results.length : Rat)

/-- One line of the backing results file: `JSON.parse` either yields a
record or throws. -/
inductive RawLine where
  | valid (result : EvaluationResult)
  | malformed
deriving Repr, DecidableEq

/-- `lines.map(line => JSON.parse(line))`: parses left to right, throwing
at the first malformed line. -/
def parseLines : List RawLine → Except String (List EvaluationResult)
  | [] => .ok []
  | .valid r :: rest => (parseLines rest).map (fun rs => r :: rs)
  | .malformed :: _ => .error "SyntaxError"

/-- State of the backing `results.json` source as seen by one read:
absent (ENOENT), unreadable (any other I/O error), or readable content. -/
inductive FileSource where
  | missing
  | unreadable
  | content (lines : List RawLine)
deriving Repr, DecidableEq

/-- Mutable state of `GraveyardService`: the cached snapshot and the time
of its last refresh. -/
structure CacheState where
  cachedResults : List EvaluationResult
  lastCacheUpdate : Int
deriving Repr, DecidableEq

/-- `private readonly cacheTimeout = 30000`. -/
def cacheTimeout : Int := 30000

/-- The error message of the non-ENOENT branch of `loadResultsFromFile`:
`throw new Error('Failed to access the graveyard records')`. -/
def storageErrorMessage : String := "Failed to access the graveyard records"

/-- `GraveyardService.loadResultsFromFile` (lines 176-194) as a state
transformer: ENOENT installs an empty snapshot; a read failure or a
`JSON.parse` failure is rethrown as the storage error with
`this.cachedResults` untouched (the snapshot assignment happens only after
every line parsed). -/
def loadResultsFromFile (st : CacheState) (src : FileSource) :
    Except String Unit × CacheState :=
  match src with
  | .missing => (.ok (), { st with cachedResults := [] })
  | .unreadable => (.error storageErrorMessage, st)
  | .content lines =>
      match parseLines lines with
      | .ok rs => (.ok (), { st with cachedResults := rs })
      | .error _ => (.error storageErrorMessage, st)

/-- The staleness guard of `refreshCacheIfNeeded` (line 167):
`now - this.lastCacheUpdate > this.cacheTimeout`. -/
def refreshTriggered (st : CacheState) (now : Int) : Bool :=
  decide (now - st.lastCacheUpdate > cacheTimeout)

/-- `GraveyardService.refreshCacheIfNeeded` (lines 165-171): reload and
restamp only when the snapshot is stale; `lastCacheUpdate` is advanced only
after a successful load. -/
def refreshCacheIfNeeded (st : CacheState) (now : Int) (src : FileSource) :
    Except String Unit × CacheState :=
  if now - st.lastCacheUpdate > cacheTimeout then
    match loadResultsFromFile st src with
    | (.ok (), st') => (.ok (), { st' with lastCacheUpdate := now })
    | (.error e, st') => (.error e, st')
  else (.ok (), st)

/-- `GraveyardService.getAllResults` (lines 29-32): refresh if needed, then
return (a copy of) the snapshot. -/
def getAllResults (st : CacheState) (now : Int) (src : FileSource) :
    Except String (List EvaluationResult) × CacheState :=
  match refreshCacheIfNeeded st now src with
  | (.ok (), st') => (.ok st'.cachedResults, st')
  | (.error e, st') => (.error e, st')

/-- The lookup inside `GraveyardService.getResultById` (lines 37-40):
`results.find(result => result.prompt_id === promptId) || null` over the
current snapshot. -/
def getResultById (results : List EvaluationResult) (promptId : String) :
    Option EvaluationResult :=
  results.find? (fun result => result.prompt_id == promptId)

/-- Status lifecycle of a revival attempt:
`'pending' | 'success' | 'failed'` in `revivalService.ts`. -/
inductive RevivalStatus where
  | pending
  | success
  | failed
deriving Repr, DecidableEq

/-- One ledger entry, from the `RevivalAttempt` interface in
`revivalService.ts`. `timestamp` is epoch milliseconds (the source only
compares timestamps numerically). -/
structure RevivalAttempt where
  revival_id : String
  prompt_id : String
  original_prompt : String
  improved_prompt : String
  suggestion_index : Nat
  strategy : String
  confidence_score : Rat
  expected_improvements : List (String × Rat)
  timestamp : Int
  user_feedback : Option String := none
  status : RevivalStatus
deriving Repr, DecidableEq

/-- A revival request, from `RevivalRequest` in `types/graveyard.ts`. -/
structure RevivalRequest where
  prompt_id : String
  suggestion_index : Nat
  user_feedback : Option String := none
deriving Repr, DecidableEq

/-- The structured result of `revivePrompt`, from `RevivalResponse` in
`types/graveyard.ts`. -/
structure RevivalResponse where
  success : Bool
  message : String
  original_prompt : String
  improved_prompt : String
  expected_improvements : List (String × Rat)
  revival_id : String
deriving Repr, DecidableEq

/-- State of the backing `revival_log.json` as seen by one read: absent
(ENOENT), unreadable, whole-document unparseable, or a parsed attempt
list. -/
inductive LedgerSource where
  | missing
  | unreadable
  | malformed
  | content (attempts : List RevivalAttempt)
deriving Repr, DecidableEq

/-- `RevivalService.loadRevivalLog` (lines 598-609): ENOENT yields the
empty ledger; any other read or parse failure is rethrown (the concrete
error payloads stand in for the raw rethrown exceptions). -/
def loadRevivalLog : LedgerSource → Except String (List RevivalAttempt)
  | .missing => .ok []
  | .unreadable => .error "EACCES"
  | .malformed => .error "SyntaxError"
  | .content attempts => .ok attempts

/-- The filter inside `getRevivalHistory`:
`revivalLog.filter(attempt => attempt.prompt_id === promptId)`. -/
def historyFor (revivalLog : List RevivalAttempt) (promptId : String) :
    List RevivalAttempt :=
  revivalLog.filter (fun attempt => attempt.prompt_id == promptId)

/-- `RevivalService.getRevivalHistory` (lines 488-496): on any load
failure the catch block returns the empty list. -/
def getRevivalHistory (src : LedgerSource) (promptId : String) :
    List RevivalAttempt :=
  match loadRevivalLog src with
  | .ok revivalLog => historyFor revivalLog promptId
  | .error _ => []

/-- Return shape of `getRevivalStats`. -/
structure RevivalStats where
  total_attempts : Nat
  successful_revivals : Nat
  success_rate : Rat
  most_successful_strategy : String
  recent_revivals : List RevivalAttempt
deriving Repr, DecidableEq

/-- The all-zero structure returned by the catch block of
`getRevivalStats` (lines 540-546). -/
def emptyRevivalStats : RevivalStats :=
  { total_attempts := 0, successful_revivals := 0, success_rate := 0,
    most_successful_strategy := "none", recent_revivals := [] }

/-- The `strategyStats` reduce of `getRevivalStats` (lines 516-521):
per-strategy success counts in first-seen order. -/
def strategySuccessCounts (revivalLog : List RevivalAttempt) : List (String × Nat) :=
  revivalLog.foldl
    (fun acc attempt =>
      if attempt.status == RevivalStatus.success then bumpCount acc attempt.strategy
      else acc)
    []

/-- The try-block body of `RevivalService.getRevivalStats`
(lines 508-537): counts, rate, most successful strategy
(`entries.sort(([,a],[,b]) => b - a)[0]?.[0] || 'none'`) and the ten most
recent attempts by timestamp. -/
def computeRevivalStats (revivalLog : List RevivalAttempt) : RevivalStats :=
  let totalAttempts := revivalLog.length
  let successfulRevivals :=
    (revivalLog.filter (fun a => a.status == RevivalStatus.success)).length
  let successRate : Rat :=
    if totalAttempts > 0 then (successfulRevivals : Rat) / (totalAttempts : Rat) else 0
  let sortedStrategies :=
    stableSortByCmp (fun x y => ((y.2 : Int) - (x.2 : Int))) (strategySuccessCounts revivalLog)
  let mostSuccessfulStrategy := match sortedStrategies.head? with
    | some entry => if entry.1 = "" then "none" else entry.1
    | none => "none"
  let recentRevivals := (stableSortByCmp (fun a b => b.timestamp - a.timestamp) revivalLog).take 10
  { total_attempts := totalAttempts
    successful_revivals := successfulRevivals
    success_rate := successRate
    most_successful_strategy := mostSuccessfulStrategy
    recent_revivals := recentRevivals }

/-- `RevivalService.getRevivalStats` (lines 501-548): on any load failure
the catch block returns the all-zero structure. -/
def getRevivalStats (src : LedgerSource) : RevivalStats :=
  match loadRevivalLog src with
  | .ok revivalLog => computeRevivalStats revivalLog
  | .error _ => emptyRevivalStats

/-- `RevivalService.logRevivalAttempt` (lines 553-568): read the ledger,
push the attempt, write the whole document back; a failure anywhere in the
read-modify-write is rethrown and leaves the persisted ledger unchanged.
`writeOk` models whether that I/O succeeded. -/
def logRevivalAttempt (revivalLog : List RevivalAttempt) (attempt : RevivalAttempt)
    (writeOk : Bool) : Except String (List RevivalAttempt) :=
  if writeOk then .ok (revivalLog ++ [attempt]) else .error "write failed"

/-- `RevivalService.updateRevivalStatus` (lines 574-593): find the attempt
by id and rewrite the document with its status replaced; the catch block
swallows every failure, leaving the persisted ledger unchanged. `writeOk`
models whether the read-modify-write I/O succeeded. -/
def updateRevivalStatus (revivalLog : List RevivalAttempt) (revivalId : String)
    (status : RevivalStatus) (writeOk : Bool) : List RevivalAttempt :=
  if writeOk then
    match revivalLog.findIdx? (fun attempt => attempt.revival_id == revivalId) with
    | some attemptIndex =>
        match revivalLog[attemptIndex]? with
        | some attempt => revivalLog.set attemptIndex { attempt with status := status }
        | none => revivalLog
    | none => revivalLog
  else revivalLog

/-- `'💀 Prompt not found in the graveyard'`. -/
def notFoundMessage : String := "💀 Prompt not found in the graveyard"

/-- `'✨ This prompt is already alive! No revival needed.'`. -/
def alreadyAliveMessage : String := "✨ This prompt is already alive! No revival needed."

/-- `` `🔮 Revival suggestion ${index} not found` ``. -/
def suggestionNotFoundMessage (suggestionIndex : Nat) : String :=
  "🔮 Revival suggestion " ++ toString suggestionIndex ++ " not found"

/-- The message of the outer catch block of `revivePrompt`. -/
def interruptedMessage : String :=
  "⚡ The revival ritual was interrupted by dark forces. Please try again."

/-- The message for a resolved-successful revival. -/
def revivalSuccessMessage (strategy : String) : String :=
  "🎉 Revival ritual successful! The prompt has been brought back to life with " ++
    strategy ++ " strategy."

/-- The message for a resolved-failed revival. -/
def revivalFailedMessage : String :=
  "💀 Revival ritual failed. The zombie resisted our necromancy. Try a different approach."

/-- `RevivalService.revivePrompt` (lines 390-483) as a transformer of the
persisted ledger. `records` is the snapshot `getResultById` consults,
`newRevivalId` the fresh `uuidv4()`, `now` the attempt timestamp;
`appendOk`/`updateOk` model the I/O outcomes of `logRevivalAttempt` and
`updateRevivalStatus`. An append failure propagates to the outer catch
(the interrupted response); an update failure is swallowed by
`updateRevivalStatus` itself, so the resolved outcome is still returned. -/
def revivePrompt (records : List EvaluationResult) (revivalLog : List RevivalAttempt)
    (request : RevivalRequest) (newRevivalId : String) (now : Int)
    (appendOk updateOk : Bool) : RevivalResponse × List RevivalAttempt :=
  match getResultById records request.prompt_id with
  | none =>
      ({ success := false, message := notFoundMessage, original_prompt := "",
         improved_prompt := "", expected_improvements := [], revival_id := "" },
       revivalLog)
  | some zombieResult =>
      if !zombieResult.zombie_status.is_zombie then
        ({ success := false, message := alreadyAliveMessage,
           original_prompt := zombieResult.prompt_text, improved_prompt := "",
           expected_improvements := [], revival_id := "" }, revivalLog)
      else
        match zombieResult.revival_suggestions[request.suggestion_index]? with
        | none =>
            ({ success := false,
               message := suggestionNotFoundMessage request.suggestion_index,
               original_prompt := zombieResult.prompt_text, improved_prompt := "",
               expected_improvements := [], revival_id := "" }, revivalLog)
        | some suggestion =>
            let revivalAttempt : RevivalAttempt :=
              { revival_id := newRevivalId
                prompt_id := request.prompt_id
                original_prompt := zombieResult.prompt_text
                improved_prompt := suggestion.improved_prompt
                suggestion_index := request.suggestion_index
                strategy := suggestion.strategy
                confidence_score := suggestion.confidence_score
                expected_improvements := suggestion.expected_improvements
                timestamp := now
                user_feedback := request.user_feedback
                status := RevivalStatus.pending }
            match logRevivalAttempt revivalLog revivalAttempt appendOk with
            | .error _ =>
                ({ success := false, message := interruptedMessage,
                   original_prompt := "", improved_prompt := "",
                   expected_improvements := [], revival_id := "" }, revivalLog)
            | .ok loggedLog =>
                let simulatedSuccess := decide (suggestion.confidence_score > (6 : Rat) / 10)
                let finalStatus :=
                  if simulatedSuccess then RevivalStatus.success else RevivalStatus.failed
                let updatedLog := updateRevivalStatus loggedLog newRevivalId finalStatus updateOk
                ({ success := simulatedSuccess
                   message := if simulatedSuccess then revivalSuccessMessage suggestion.strategy
                     else revivalFailedMessage
                   original_prompt := zombieResult.prompt_text
                   improved_prompt := suggestion.improved_prompt
                   expected_improvements := suggestion.expected_improvements
                   revival_id := revivalAttempt.revival_id }, updatedLog)

/-- Concrete suggestion with confidence above the 0.6 threshold, used to
instantiate theorems with hypotheses. -/
def sampleSuggestion : RevivalSuggestion :=
  { improved_prompt := "Write a detailed, well-scoped prompt."
    strategy := "add-context"
    confidence_score := (3 : Rat) / 4
    expected_improvements := [("clarity", (1 : Rat) / 10)] }

/-- Concrete zombie record (score 0.57, one suggestion). -/
def sampleZombie : EvaluationResult :=
  { prompt_id := "p1"
    file_path := "prompts/p1.txt"
    prompt_text := "do stuff"
    timestamp := 1000
    llm_responses := [("openai", { latency_ms := some 120, cost_usd := some ((1 : Rat) / 100) })]
    zombie_status := { is_zombie := true, overall_score := (57 : Rat) / 100,
                       severity := "shambling_zombie" }
    revival_suggestions := [sampleSuggestion] }

/-- Concrete living record (score 0.84, no suggestions). -/
def sampleAlive : EvaluationResult :=
  { prompt_id := "p2"
    timestamp := 2000
    llm_responses := [("openai", { latency_ms := some 80, cost_usd := some ((2 : Rat) / 100) })]
    zombie_status := { is_zombie := false, overall_score := (84 : Rat) / 100,
                       severity := "alive" }
    revival_suggestions := [] }

/-- Concrete record whose providers reported no latency at all. -/
def sampleNoLatency : EvaluationResult :=
  { prompt_id := "p3"
    timestamp := 1500
    llm_responses := [("anthropic", { cost_usd := some ((3 : Rat) / 100) })]
    zombie_status := { is_zombie := false, overall_score := (7 : Rat) / 10,
                       severity := "alive" } }

/-- Concrete cache state holding the two sample records. -/
def sampleCacheState : CacheState :=
  { cachedResults := [sampleZombie, sampleAlive], lastCacheUpdate := 100000 }

/-- An `if c then false else rest` link in an early-return chain is a
conjunction with the negated condition. -/
theorem if_false_chain (c rest : Bool) : (if c then false else rest) = (!c && rest) := by
  cases c <;> simp

/-- Negating an existential violation over an optional field gives the
universal satisfaction over that field. -/
theorem not_option_any {α : Type} (o : Option α) (v s : α → Bool)
    (h : ∀ a, (!(v a)) = s a) : (!(o.any v)) = o.all s := by
  cases o with
  | none => rfl
  | some a => exact h a

/-- The early-return filter chain of the source coincides with the spec's
conjunction of supplied predicates. -/
theorem filterPred_eq_satisfiesAll (filters : FilterParams)
    (result : EvaluationResult) :
    filterPred filters result = satisfiesAll filters result := by
  unfold filterPred satisfiesAll
  simp only [if_false_chain]
  rw [not_option_any filters.is_zombie
        (fun z => result.zombie_status.is_zombie != z)
        (fun z => result.zombie_status.is_zombie == z)
        (fun z => by simp [bne]),
      not_option_any filters.severity
        (fun s => result.zombie_status.severity != s)
        (fun s => result.zombie_status.severity == s)
        (fun s => by simp [bne]),
      not_option_any filters.min_score
        (fun m => decide (result.zombie_status.overall_score < m))
        (fun m => decide (m ≤ result.zombie_status.overall_score))
        (fun m => by rw [← decide_not]; exact decide_eq_decide.mpr not_lt),
      not_option_any filters.max_score
        (fun m => decide (m < result.zombie_status.overall_score))
        (fun m => decide (result.zombie_status.overall_score ≤ m))
        (fun m => by rw [← decide_not]; exact decide_eq_decide.mpr not_lt),
      not_option_any filters.date_from
        (fun d => decide (result.timestamp < d))
        (fun d => decide (d ≤ result.timestamp))
        (fun d => by rw [← decide_not]; exact decide_eq_decide.mpr not_lt),
      not_option_any filters.date_to
        (fun d => decide (d < result.timestamp))
        (fun d => decide (result.timestamp ≤ d))
        (fun d => by rw [← decide_not]; exact decide_eq_decide.mpr not_lt),
      not_option_any filters.llm_provider
        (fun p => !((result.llm_responses.map Prod.fst).contains p))
        (fun p => (result.llm_responses.map Prod.fst).contains p)
        (fun p => Bool.not_not _)]
  simp [Bool.and_assoc]

/-- `applyFilters` keeps exactly the records satisfying the conjunction of
the supplied predicates. -/
theorem applyFilters_eq_filter_satisfiesAll (results : List EvaluationResult)
    (filters : FilterParams) :
    applyFilters results filters = results.filter (fun r => satisfiesAll filters r) :=
  List.filter_congr (fun a _ => filterPred_eq_satisfiesAll filters a)

/-- Every JavaScript slice is a contiguous segment of its input. -/
theorem jsSlice_contiguous {α : Type} (l : List α) (start fin : Int) :
    ∃ i k, jsSlice l start fin = (l.drop i).take k :=
  ⟨(jsSliceBound (l.length : Int) start).toNat,
   ((jsSliceBound (l.length : Int) fin) - (jsSliceBound (l.length : Int) start)).toNat,
   rfl⟩

/-- For a nonnegative start and count, `slice(s, s + c)` is `drop s` then
`take c`. -/
theorem jsSlice_nonneg {α : Type} (l : List α) (s c : Int) (hs : 0 ≤ s) (hc : 0 ≤ c) :
    jsSlice l s (s + c) = (l.drop s.toNat).take c.toNat := by
  unfold jsSlice jsSliceBound
  rw [if_neg (not_lt.mpr hs), if_neg (not_lt.mpr (by omega : (0 : Int) ≤ s + c))]
  rcases le_or_lt s (l.length : Int) with hle | hgt
  · rw [min_eq_left hle]
    rcases le_or_lt (s + c) (l.length : Int) with hle2 | hgt2
    · rw [min_eq_left hle2]
      congr 1
      omega
    · rw [min_eq_right hgt2.le]
      have hdl : (l.drop s.toNat).length = l.length - s.toNat := List.length_drop _ _
      rw [List.take_of_length_le (by omega), List.take_of_length_le (by omega)]
  · rw [min_eq_right hgt.le]
    have h1 : l.drop ((l.length : Int)).toNat = ([] : List α) := by simp
    have h2 : l.drop s.toNat = ([] : List α) := List.drop_eq_nil_of_le (by omega)
    rw [h1, h2]
    simp

/-- Claim C2: for every record set and every combination of supplied
filter predicates, the query pipeline's total equals the number of records
of its input sequence satisfying the conjunction of every supplied
predicate (absent predicates imposing no constraint), computed before
pagination, and the returned items are a contiguous slice of the
filtered-and-sorted sequence. Stated for the `getZombiePrompts` pipeline
of graveyardService.ts both on an arbitrary input sequence
(`queryRecords`, lines 99-117) and for the full endpoint, whose filter
stage receives the zombie-restricted sequence. -/
theorem queryRecords_total_and_contiguous (records : List EvaluationResult)
    (f : FilterParams) (p : PaginationParams) :
    (queryRecords records (some f) (some p)).2
        = (records.filter (fun r => satisfiesAll f r)).length
    ∧ (∃ i k, (queryRecords records (some f) (some p)).1
        = ((filteredSorted records (some f) p).drop i).take k)
    ∧ (getZombiePrompts records (some f) (some p)).total
        = ((records.filter (fun r => r.zombie_status.is_zombie)).filter
            (fun r => satisfiesAll f r)).length
    ∧ (∃ i k, (getZombiePrompts records (some f) (some p)).zombies
        = ((((filteredSorted (records.filter (fun r => r.zombie_status.is_zombie))
              (some f) p).drop i).take k).map mapToPromptSummary)) := by
  refine ⟨?_, ?_, ?_, ?_⟩
  · simp [queryRecords, filteredOf, applyFilters_eq_filter_satisfiesAll]
  · simpa [queryRecords] using
      jsSlice_contiguous (filteredSorted records (some f) p)
        ((p.page - 1) * p.limit) ((p.page - 1) * p.limit + p.limit)
  · simp [getZombiePrompts, queryRecords, filteredOf, applyFilters_eq_filter_satisfiesAll]
  · obtain ⟨i, k, h⟩ := jsSlice_contiguous
      (filteredSorted (records.filter (fun r => r.zombie_status.is_zombie)) (some f) p)
      ((p.page - 1) * p.limit) ((p.page - 1) * p.limit + p.limit)
    exact ⟨i, k, by simp [getZombiePrompts, queryRecords, h]⟩

/-- An unrecognized `sortBy` hits the `default` branch, so no key is
extracted. -/
theorem sortKeyValue_none (sortBy : String)
    (h : sortBy ∉ (["score", "timestamp", "cost", "latency"] : List String))
    (result : EvaluationResult) : sortKeyValue sortBy result = none := by
  simp only [List.mem_cons, List.not_mem_nil, or_false, not_or] at h
  obtain ⟨h1, h2, h3, h4⟩ := h
  simp [sortKeyValue, h1, h2, h3, h4]

/-- With an unrecognized `sortBy` the comparator returns `0` on every
pair. -/
theorem compareResults_unrecognized (sortBy order : String)
    (h : sortBy ∉ (["score", "timestamp", "cost", "latency"] : List String))
    (a b : EvaluationResult) : compareResults sortBy order a b = 0 := by
  unfold compareResults
  rw [sortKeyValue_none sortBy h a, sortKeyValue_none sortBy h b]

/-- Inserting with an everywhere-nonpositive comparator puts the new
element in front. -/
theorem insertCmp_nonpos {α : Type} (cmp : α → α → Int) (x : α) (l : List α)
    (h : ∀ a b, cmp a b ≤ 0) : insertCmp cmp x l = x :: l := by
  cases l with
  | nil => rfl
  | cons y ys => simp [insertCmp, h x y]

/-- A stable sort under an everywhere-nonpositive comparator is the
identity. -/
theorem stableSortByCmp_nonpos {α : Type} (cmp : α → α → Int) (l : List α)
    (h : ∀ a b, cmp a b ≤ 0) : stableSortByCmp cmp l = l := by
  induction l with
  | nil => rfl
  | cons x xs ih => simp [stableSortByCmp, ih, insertCmp_nonpos cmp x xs h]

/-- Claim C10: sorting with a `sort_by` field outside
{score, timestamp, cost, latency} is a no-op — the comparator returns
equal for every pair, the sequence's order is unchanged, and no error is
raised (the function is total). -/
theorem sortResults_unrecognized_noop (results : List EvaluationResult)
    (sortBy order : String)
    (h : sortBy ∉ (["score", "timestamp", "cost", "latency"] : List String)) :
    (∀ a b, compareResults sortBy order a b = 0)
    ∧ sortResults results sortBy order = results := by
  refine ⟨compareResults_unrecognized sortBy order h, ?_⟩
  unfold sortResults
  exact stableSortByCmp_nonpos _ _
    (fun a b => by rw [compareResults_unrecognized sortBy order h a b])

/-- Witness for C10 at the unrecognized field `"banana"` on the two sample
records. -/
theorem sortResults_unrecognized_noop_witness :
    ("banana" ∉ (["score", "timestamp", "cost", "latency"] : List String))
    ∧ ((∀ a b, compareResults "banana" "desc" a b = 0)
       ∧ sortResults [sampleZombie, sampleAlive] "banana" "desc"
          = [sampleZombie, sampleAlive]) :=
  ⟨by decide,
   sortResults_unrecognized_noop [sampleZombie, sampleAlive] "banana" "desc" (by decide)⟩

/-- Claim C3 as stated is refuted at a concrete input: a query-string
limit of `-3` passes `parseInt(query.limit) || 20` unchanged (it is
truthy) and `Math.min(-3, 100)` leaves it at `-3`, so the page size used
is not clamped into `[1, 100]`. -/
theorem parsePagination_negative_limit_unclamped :
    ¬(1 ≤ (parsePagination (some 1) (some (-3)) none none).limit
      ∧ (parsePagination (some 1) (some (-3)) none none).limit ≤ 100) := by
  decide

/-- Claim C3 (amended): the page size is clamped from above to 100 — a
missing, zero or non-numeric limit defaults to 20 and a supplied positive
limit lands in `[1, 100]` — but a negative limit passes through unclamped.
For a 1-based page and nonnegative size, the returned items are exactly
the slice `[(page-1)*size, page*size)` of the filtered-and-sorted
sequence, and a page past its end yields the empty item list together
with the unchanged pre-pagination total rather than an error. -/
theorem pagination_clamped_and_sliced :
    (∀ pageRaw limitRaw sbRaw soRaw,
        (parsePagination pageRaw limitRaw sbRaw soRaw).limit ≤ 100)
    ∧ (∀ pageRaw sbRaw soRaw (l : Int), 1 ≤ l →
        1 ≤ (parsePagination pageRaw (some l) sbRaw soRaw).limit
        ∧ (parsePagination pageRaw (some l) sbRaw soRaw).limit = min l 100)
    ∧ (∀ pageRaw sbRaw soRaw,
        (parsePagination pageRaw none sbRaw soRaw).limit = 20
        ∧ (parsePagination pageRaw (some 0) sbRaw soRaw).limit = 20)
    ∧ (∀ records filters (p : PaginationParams), 1 ≤ p.page → 0 ≤ p.limit →
        (queryRecords records filters (some p)).1
          = ((filteredSorted records filters p).drop
              ((p.page - 1) * p.limit).toNat).take p.limit.toNat)
    ∧ (∀ records filters (p : PaginationParams), 1 ≤ p.page → 0 ≤ p.limit →
        (filteredSorted records filters p).length ≤ ((p.page - 1) * p.limit).toNat →
        (queryRecords records filters (some p)).1 = []
        ∧ (queryRecords records filters (some p)).2
            = (filteredOf records filters).length) := by
  have hslice : ∀ records filters (p : PaginationParams), 1 ≤ p.page → 0 ≤ p.limit →
      (queryRecords records filters (some p)).1
        = ((filteredSorted records filters p).drop
            ((p.page - 1) * p.limit).toNat).take p.limit.toNat := by
    intro records filters p hpage hlimit
    simp only [queryRecords]
    exact jsSlice_nonneg _ _ _ (mul_nonneg (by omega) hlimit) hlimit
  refine ⟨?_, ?_, ?_, hslice, ?_⟩
  · intro pageRaw limitRaw sbRaw soRaw
    cases limitRaw with
    | none => simp [parsePagination]
    | some l =>
        by_cases hl : l = 0 <;> simp [parsePagination, hl]
  · intro pageRaw sbRaw soRaw l hl
    have hne : l ≠ 0 := by omega
    constructor
    · simp [parsePagination, hne]
      omega
    · simp [parsePagination, hne]
  · intro pageRaw sbRaw soRaw
    exact ⟨rfl, rfl⟩
  · intro records filters p hpage hlimit hpast
    constructor
    · rw [hslice records filters p hpage hlimit,
        List.drop_eq_nil_of_le hpast]
      simp
    · simp [queryRecords]

/-- Witness for C3 (amended) at concrete inputs: a supplied limit of 5 is
kept and clamped; page 3 of size 2 over the two sample records is past the
end and yields the empty page with the unchanged total. -/
theorem pagination_clamped_and_sliced_witness :
    ((1 : Int) ≤ 5
     ∧ (1 ≤ (parsePagination none (some 5) none none).limit
        ∧ (parsePagination none (some 5) none none).limit = min 5 100))
    ∧ ((1 : Int) ≤ ({ page := 3, limit := 2 } : PaginationParams).page
       ∧ (0 : Int) ≤ ({ page := 3, limit := 2 } : PaginationParams).limit
       ∧ (filteredSorted [sampleZombie, sampleAlive] none
            { page := 3, limit := 2 }).length
          ≤ ((({ page := 3, limit := 2 } : PaginationParams).page - 1)
              * ({ page := 3, limit := 2 } : PaginationParams).limit).toNat
       ∧ ((queryRecords [sampleZombie, sampleAlive] none
            (some { page := 3, limit := 2 })).1 = []
          ∧ (queryRecords [sampleZombie, sampleAlive] none
              (some { page := 3, limit := 2 })).2
            = (filteredOf [sampleZombie, sampleAlive] none).length)) :=
  ⟨⟨by decide, pagination_clamped_and_sliced.2.1 none none none 5 (by decide)⟩,
   ⟨by decide, by decide, by decide,
    pagination_clamped_and_sliced.2.2.2.2 [sampleZombie, sampleAlive] none
      { page := 3, limit := 2 } (by decide) (by decide) (by decide)⟩⟩

/-- Claim C4: while the cached snapshot is younger than the 30-second
staleness window, two successive getAll() calls return the identical
record sequence (same elements, same order) and neither triggers a
refresh — the result does not depend on the backing source at all. -/
theorem getAllResults_idempotent_within_window (st : CacheState)
    (src₁ src₂ : FileSource) (now₁ now₂ : Int) (h₁ : now₁ ≤ now₂)
    (h₂ : now₂ - st.lastCacheUpdate ≤ cacheTimeout) :
    getAllResults st now₁ src₁ = (.ok st.cachedResults, st)
    ∧ getAllResults st now₂ src₂ = (.ok st.cachedResults, st)
    ∧ refreshTriggered st now₁ = false
    ∧ refreshTriggered st now₂ = false := by
  have g₁ : ¬(now₁ - st.lastCacheUpdate > cacheTimeout) := by omega
  have g₂ : ¬(now₂ - st.lastCacheUpdate > cacheTimeout) := by omega
  refine ⟨?_, ?_, ?_, ?_⟩
  · simp [getAllResults, refreshCacheIfNeeded, g₁]
  · simp [getAllResults, refreshCacheIfNeeded, g₂]
  · simp [refreshTriggered, g₁]
  · simp [refreshTriggered, g₂]

/-- Witness for C4: two reads at 110000 and 120000 against a snapshot
refreshed at 100000 (age at most 20 seconds), with differing and even
broken backing sources. -/
theorem getAllResults_idempotent_witness :
    ((110000 : Int) ≤ 120000
     ∧ (120000 : Int) - sampleCacheState.lastCacheUpdate ≤ cacheTimeout)
    ∧ (getAllResults sampleCacheState 110000 FileSource.missing
        = (.ok sampleCacheState.cachedResults, sampleCacheState)
       ∧ getAllResults sampleCacheState 120000 FileSource.unreadable
        = (.ok sampleCacheState.cachedResults, sampleCacheState)
       ∧ refreshTriggered sampleCacheState 110000 = false
       ∧ refreshTriggered sampleCacheState 120000 = false) :=
  ⟨⟨by decide, by decide⟩,
   getAllResults_idempotent_within_window sampleCacheState FileSource.missing
     FileSource.unreadable 110000 120000 (by decide) (by decide)⟩

/-- A malformed line anywhere makes the whole line-by-line parse throw. -/
theorem parseLines_malformed (lines : List RawLine)
    (h : RawLine.malformed ∈ lines) : parseLines lines = .error "SyntaxError" := by
  induction lines with
  | nil => cases h
  | cons x rest ih =>
      cases x with
      | malformed => rfl
      | valid r =>
          have hm : RawLine.malformed ∈ rest := by
            rcases List.mem_cons.mp h with h' | h'
            · cases h'
            · exact h'
          simp [parseLines, ih hm, Except.map]

/-- Claim C5: a missing backing source installs the empty snapshot and
getAll() succeeds with zero records; an unreadable source, or a source
containing an unparseable line, surfaces the storage error while the
previous in-memory snapshot is retained unmodified (and hence remains
servable). -/
theorem loadResults_failure_modes :
    (∀ st, loadResultsFromFile st FileSource.missing
        = (.ok (), { st with cachedResults := [] }))
    ∧ (∀ st (now : Int), refreshTriggered st now = true →
        getAllResults st now FileSource.missing
          = (.ok [], { cachedResults := [], lastCacheUpdate := now }))
    ∧ (∀ st, loadResultsFromFile st FileSource.unreadable
        = (.error storageErrorMessage, st))
    ∧ (∀ st lines, RawLine.malformed ∈ lines →
        loadResultsFromFile st (FileSource.content lines)
          = (.error storageErrorMessage, st)) := by
  refine ⟨fun st => rfl, ?_, fun st => rfl, ?_⟩
  · intro st now h
    have hc : now - st.lastCacheUpdate > cacheTimeout := by
      simpa [refreshTriggered] using h
    simp [getAllResults, refreshCacheIfNeeded, loadResultsFromFile, hc]
  · intro st lines h
    simp [loadResultsFromFile, parseLines_malformed lines h]

/-- Witness for C5: a stale cache served from a missing source comes back
empty, and a source with one bad line errors while the sample snapshot is
retained. -/
theorem loadResults_failure_modes_witness :
    (refreshTriggered sampleCacheState 200000 = true
     ∧ getAllResults sampleCacheState 200000 FileSource.missing
        = (.ok [], { cachedResults := [], lastCacheUpdate := 200000 }))
    ∧ (RawLine.malformed ∈ [RawLine.valid sampleAlive, RawLine.malformed]
       ∧ loadResultsFromFile sampleCacheState
          (FileSource.content [RawLine.valid sampleAlive, RawLine.malformed])
          = (.error storageErrorMessage, sampleCacheState)) :=
  ⟨⟨by decide, loadResults_failure_modes.2.1 sampleCacheState 200000 (by decide)⟩,
   ⟨by decide,
    loadResults_failure_modes.2.2.2 sampleCacheState
      [RawLine.valid sampleAlive, RawLine.malformed] (by decide)⟩⟩

/-- Claim C1: for a zombie record and an in-bounds suggestion index (with
the ledger append succeeding), revivePrompt resolves the attempt to
success exactly when the chosen suggestion's confidence score strictly
exceeds 0.6, and the resolution is identical across repeated calls with
the same input suggestion, whatever the ledger state, generated id,
timestamp, or status-update I/O outcome. -/
theorem revivePrompt_resolves_by_confidence (records : List EvaluationResult)
    (request : RevivalRequest) (zombieResult : EvaluationResult)
    (suggestion : RevivalSuggestion)
    (hfound : getResultById records request.prompt_id = some zombieResult)
    (hzombie : zombieResult.zombie_status.is_zombie = true)
    (hsugg : zombieResult.revival_suggestions[request.suggestion_index]? = some suggestion) :
    (∀ revivalLog newRevivalId (now : Int) updateOk,
      ((revivePrompt records revivalLog request newRevivalId now true updateOk).1).success
        = decide (suggestion.confidence_score > (6 : Rat) / 10))
    ∧ (∀ log₁ id₁ (now₁ : Int) u₁ log₂ id₂ (now₂ : Int) u₂,
      ((revivePrompt records log₁ request id₁ now₁ true u₁).1).success
        = ((revivePrompt records log₂ request id₂ now₂ true u₂).1).success) := by
  have hmain : ∀ revivalLog newRevivalId (now : Int) updateOk,
      ((revivePrompt records revivalLog request newRevivalId now true updateOk).1).success
        = decide (suggestion.confidence_score > (6 : Rat) / 10) := by
    intro revivalLog newRevivalId now updateOk
    simp [revivePrompt, hfound, hzombie, hsugg, logRevivalAttempt]
  exact ⟨hmain, fun log₁ id₁ now₁ u₁ log₂ id₂ now₂ u₂ => by
    rw [hmain log₁ id₁ now₁ u₁, hmain log₂ id₂ now₂ u₂]⟩

/-- Witness for C1: the sample zombie's single suggestion has confidence
0.75 > 0.6, and the call resolves accordingly. -/
theorem revivePrompt_resolves_by_confidence_witness :
    (getResultById [sampleZombie] "p1" = some sampleZombie
     ∧ sampleZombie.zombie_status.is_zombie = true
     ∧ sampleZombie.revival_suggestions[(0 : Nat)]? = some sampleSuggestion)
    ∧ ((revivePrompt [sampleZombie] []
          { prompt_id := "p1", suggestion_index := 0 } "r1" 5000 true true).1).success
        = decide (sampleSuggestion.confidence_score > (6 : Rat) / 10) :=
  ⟨⟨rfl, rfl, rfl⟩,
   (revivePrompt_resolves_by_confidence [sampleZombie]
      { prompt_id := "p1", suggestion_index := 0 } sampleZombie sampleSuggestion
      rfl rfl rfl).1 [] "r1" 5000 true⟩

/-- Claim C6: revivePrompt on a non-zombie record returns the structured
"already alive" outcome (not an error) and leaves the revival ledger
unchanged, and revivePrompt with a suggestion index at or beyond the
suggestion list's length returns the validation-failure outcome and
likewise appends no ledger entry — both observable via history. -/
theorem revivePrompt_non_zombie_and_bad_index (records : List EvaluationResult)
    (revivalLog : List RevivalAttempt) (request : RevivalRequest)
    (newRevivalId : String) (now : Int) (appendOk updateOk : Bool)
    (zombieResult : EvaluationResult)
    (hfound : getResultById records request.prompt_id = some zombieResult) :
    (zombieResult.zombie_status.is_zombie = false →
      revivePrompt records revivalLog request newRevivalId now appendOk updateOk
        = ({ success := false, message := alreadyAliveMessage,
             original_prompt := zombieResult.prompt_text, improved_prompt := "",
             expected_improvements := [], revival_id := "" }, revivalLog)
      ∧ historyFor
          (revivePrompt records revivalLog request newRevivalId now appendOk updateOk).2
          request.prompt_id
        = historyFor revivalLog request.prompt_id)
    ∧ (zombieResult.zombie_status.is_zombie = true →
       zombieResult.revival_suggestions.length ≤ request.suggestion_index →
      revivePrompt records revivalLog request newRevivalId now appendOk updateOk
        = ({ success := false,
             message := suggestionNotFoundMessage request.suggestion_index,
             original_prompt := zombieResult.prompt_text, improved_prompt := "",
             expected_improvements := [], revival_id := "" }, revivalLog)
      ∧ historyFor
          (revivePrompt records revivalLog request newRevivalId now appendOk updateOk).2
          request.prompt_id
        = historyFor revivalLog request.prompt_id) := by
  constructor
  · intro halive
    have heq : revivePrompt records revivalLog request newRevivalId now appendOk updateOk
        = ({ success := false, message := alreadyAliveMessage,
             original_prompt := zombieResult.prompt_text, improved_prompt := "",
             expected_improvements := [], revival_id := "" }, revivalLog) := by
      simp [revivePrompt, hfound, halive]
    exact ⟨heq, by rw [heq]⟩
  · intro hzombie hoob
    have hnone : zombieResult.revival_suggestions[request.suggestion_index]?
        = none := List.getElem?_eq_none hoob
    have heq : revivePrompt records revivalLog request newRevivalId now appendOk updateOk
        = ({ success := false,
             message := suggestionNotFoundMessage request.suggestion_index,
             original_prompt := zombieResult.prompt_text, improved_prompt := "",
             expected_improvements := [], revival_id := "" }, revivalLog) := by
      simp [revivePrompt, hfound, hzombie, hnone]
    exact ⟨heq, by rw [heq]⟩

/-- Witness for C6: the living sample record yields the already-alive
outcome without a ledger write, and index 5 on the sample zombie (which
has one suggestion) yields the validation failure without a ledger
write. -/
theorem revivePrompt_non_zombie_and_bad_index_witness :
    (getResultById [sampleAlive] "p2" = some sampleAlive
     ∧ sampleAlive.zombie_status.is_zombie = false
     ∧ (revivePrompt [sampleAlive] [] { prompt_id := "p2", suggestion_index := 0 }
          "r1" 5000 true true
        = ({ success := false, message := alreadyAliveMessage,
             original_prompt := sampleAlive.prompt_text, improved_prompt := "",
             expected_improvements := [], revival_id := "" }, [])
        ∧ historyFor
            (revivePrompt [sampleAlive] [] { prompt_id := "p2", suggestion_index := 0 }
              "r1" 5000 true true).2 "p2"
          = historyFor [] "p2"))
    ∧ (getResultById [sampleZombie] "p1" = some sampleZombie
       ∧ sampleZombie.zombie_status.is_zombie = true
       ∧ sampleZombie.revival_suggestions.length ≤ 5
       ∧ (revivePrompt [sampleZombie] [] { prompt_id := "p1", suggestion_index := 5 }
            "r2" 5000 true true
          = ({ success := false, message := suggestionNotFoundMessage 5,
               original_prompt := sampleZombie.prompt_text, improved_prompt := "",
               expected_improvements := [], revival_id := "" }, [])
          ∧ historyFor
              (revivePrompt [sampleZombie] [] { prompt_id := "p1", suggestion_index := 5 }
                "r2" 5000 true true).2 "p1"
            = historyFor [] "p1")) :=
  ⟨⟨rfl, rfl,
    (revivePrompt_non_zombie_and_bad_index [sampleAlive] []
      { prompt_id := "p2", suggestion_index := 0 } "r1" 5000 true true sampleAlive
      rfl).1 rfl⟩,
   ⟨rfl, rfl, by decide,
    (revivePrompt_non_zombie_and_bad_index [sampleZombie] []
      { prompt_id := "p1", suggestion_index := 5 } "r2" 5000 true true sampleZombie
      rfl).2 rfl (by decide)⟩⟩

/-- Claim C9: if persisting the pending-to-terminal status update fails,
revivePrompt still returns the resolved success/failed outcome (success
iff confidence > 0.6) without surfacing the failure, and the persisted
ledger entry for the attempt retains status pending. -/
theorem revivePrompt_update_failure_keeps_pending (records : List EvaluationResult)
    (revivalLog : List RevivalAttempt) (request : RevivalRequest)
    (newRevivalId : String) (now : Int) (zombieResult : EvaluationResult)
    (suggestion : RevivalSuggestion)
    (hfound : getResultById records request.prompt_id = some zombieResult)
    (hzombie : zombieResult.zombie_status.is_zombie = true)
    (hsugg : zombieResult.revival_suggestions[request.suggestion_index]? = some suggestion) :
    ((revivePrompt records revivalLog request newRevivalId now true false).1).success
      = decide (suggestion.confidence_score > (6 : Rat) / 10)
    ∧ ((revivePrompt records revivalLog request newRevivalId now true false).1).revival_id
      = newRevivalId
    ∧ (revivePrompt records revivalLog request newRevivalId now true false).2
      = revivalLog ++
        [{ revival_id := newRevivalId
           prompt_id := request.prompt_id
           original_prompt := zombieResult.prompt_text
           improved_prompt := suggestion.improved_prompt
           suggestion_index := request.suggestion_index
           strategy := suggestion.strategy
           confidence_score := suggestion.confidence_score
           expected_improvements := suggestion.expected_improvements
           timestamp := now
           user_feedback := request.user_feedback
           status := RevivalStatus.pending }] := by
  refine ⟨?_, ?_, ?_⟩ <;>
    simp [revivePrompt, hfound, hzombie, hsugg, logRevivalAttempt, updateRevivalStatus]

/-- Witness for C9: with the status-update write failing, the caller sees
the resolved outcome while the sole persisted entry stays pending. -/
theorem revivePrompt_update_failure_witness :
    (getResultById [sampleZombie] "p1" = some sampleZombie
     ∧ sampleZombie.zombie_status.is_zombie = true
     ∧ sampleZombie.revival_suggestions[(0 : Nat)]? = some sampleSuggestion)
    ∧ (((revivePrompt [sampleZombie] [] { prompt_id := "p1", suggestion_index := 0 }
          "r9" 7000 true false).1).success
        = decide (sampleSuggestion.confidence_score > (6 : Rat) / 10)
       ∧ ((revivePrompt [sampleZombie] [] { prompt_id := "p1", suggestion_index := 0 }
            "r9" 7000 true false).1).revival_id = "r9"
       ∧ (revivePrompt [sampleZombie] [] { prompt_id := "p1", suggestion_index := 0 }
            "r9" 7000 true false).2
          = [] ++
            [{ revival_id := "r9"
               prompt_id := "p1"
               original_prompt := sampleZombie.prompt_text
               improved_prompt := sampleSuggestion.improved_prompt
               suggestion_index := 0
               strategy := sampleSuggestion.strategy
               confidence_score := sampleSuggestion.confidence_score
               expected_improvements := sampleSuggestion.expected_improvements
               timestamp := 7000
               user_feedback := none
               status := RevivalStatus.pending }]) :=
  ⟨⟨rfl, rfl, rfl⟩,
   revivePrompt_update_failure_keeps_pending [sampleZombie] []
     { prompt_id := "p1", suggestion_index := 0 } "r9" 7000 sampleZombie
     sampleSuggestion rfl rfl rfl⟩

/-- Claim C7 as stated is refuted at a concrete failing source: when the
ledger's backing store is unreadable, loadRevivalLog fails, yet
getRevivalHistory returns the empty list and getRevivalStats the all-zero
structure — the operations return an empty result instead of surfacing
the error to their callers. -/
theorem revival_reads_swallow_errors :
    loadRevivalLog LedgerSource.unreadable = .error "EACCES"
    ∧ getRevivalHistory LedgerSource.unreadable "p1" = []
    ∧ getRevivalStats LedgerSource.unreadable = emptyRevivalStats :=
  ⟨rfl, rfl, rfl⟩

/-- Claim C7 (amended): whenever reading the ledger's backing store fails
with a storage or parse error (other than the missing-source case, which
yields the empty set), history(recordId) returns the empty list and
stats() returns the all-zero statistics structure; the error is swallowed
by the catch blocks, not surfaced to callers. -/
theorem revival_reads_return_empty_on_error (src : LedgerSource) (e : String)
    (h : loadRevivalLog src = .error e) :
    (∀ promptId, getRevivalHistory src promptId = [])
    ∧ getRevivalStats src = emptyRevivalStats := by
  constructor
  · intro promptId
    simp [getRevivalHistory, h]
  · simp [getRevivalStats, h]

/-- Witness for C7 (amended) at the whole-document-unparseable source. -/
theorem revival_reads_return_empty_witness :
    loadRevivalLog LedgerSource.malformed = .error "SyntaxError"
    ∧ ((∀ promptId, getRevivalHistory LedgerSource.malformed promptId = [])
       ∧ getRevivalStats LedgerSource.malformed = emptyRevivalStats) :=
  ⟨rfl, revival_reads_return_empty_on_error LedgerSource.malformed "SyntaxError" rfl⟩

/-- Folding addition of a projection over a list is the sum of its image. -/
theorem foldl_add_eq_sum {α : Type} (f : α → Rat) (l : List α) (init : Rat) :
    l.foldl (fun s a => s + f a) init = init + (l.map f).sum := by
  induction l generalizing init with
  | nil => simp
  | cons x xs ih => simp [ih, add_assoc]

/-- The source's `reduce((a, b) => a + b, 0)` is the list sum. -/
theorem listSum_eq_sum (l : List Rat) : listSum l = l.sum := by
  simpa using foldl_add_eq_sum (fun a : Rat => a) l 0

/-- The per-record average of the source equals the spec-side per-record
mean (0 when the record reported no latencies). -/
theorem recordAvgLatency_eq_spec (result : EvaluationResult) :
    recordAvgLatency result = specRecordMeanLatency result := by
  unfold recordAvgLatency specRecordMeanLatency
  by_cases h : (recordLatencies result).length = 0
  · simp [h]
  · simp [h, listSum_eq_sum, Nat.pos_of_ne_zero h]

/-- Claim C8: on a non-empty record set, the aggregate mean latency of
getGraveyardStats is the two-level average — the mean across records of
each record's own mean over the provider latencies that reported a value,
a record with no reported latencies contributing 0 — and so is
calculateAverageLatency itself. -/
theorem getGraveyardStats_avg_latency_two_level (results : List EvaluationResult)
    (h : results ≠ []) :
    (getGraveyardStats results).avg_latency = twoLevelMeanLatency results
    ∧ calculateAverageLatency results = twoLevelMeanLatency results := by
  have hlen : results.length ≠ 0 := fun hl => h (List.eq_nil_of_length_eq_zero hl)
  have hcalc : calculateAverageLatency results = twoLevelMeanLatency results := by
    unfold calculateAverageLatency twoLevelMeanLatency
    rw [if_neg hlen, foldl_add_eq_sum recordAvgLatency results 0,
      show recordAvgLatency = specRecordMeanLatency from funext recordAvgLatency_eq_spec]
    simp
  refine ⟨?_, hcalc⟩
  unfold getGraveyardStats
  rw [if_neg hlen]
  simpa using hcalc

/-- Witness for C8 on three sample records, one of which reported no
latency at all. -/
theorem getGraveyardStats_avg_latency_witness :
    ([sampleZombie, sampleAlive, sampleNoLatency] ≠ ([] : List EvaluationResult))
    ∧ ((getGraveyardStats [sampleZombie, sampleAlive, sampleNoLatency]).avg_latency
        = twoLevelMeanLatency [sampleZombie, sampleAlive, sampleNoLatency]
       ∧ calculateAverageLatency [sampleZombie, sampleAlive, sampleNoLatency]
        = twoLevelMeanLatency [sampleZombie, sampleAlive, sampleNoLatency]) :=
  ⟨by decide,
   getGraveyardStats_avg_latency_two_level [sampleZombie, sampleAlive, sampleNoLatency]
     (by decide)⟩

end PromptGraveyard
